import Mathlib

/-!
# chaosd: JVM attack (pkg/server/chaosd/jvm.go) and process kill command
(cmd/chaos/ctl/command/process_command.go)

A shallow embedding of the two source files.  Strings are Lean strings, Go `int`
fields are `Int`, a Go `error` is `Option String` (the error text, `none` for nil),
and the operating system (temporary files, the native helper, the logger) is an
explicit state `Sys` driven by an `Env` of call outcomes.
-/

namespace chaosd

/-! ## core: the data model used by jvm.go -/

/-- Dynamic value held by the interface-typed field `StressValue`.  The source
assigns it an integer (`attack.CPUCount`) or a string (`attack.MemorySize`); `nil`
is the zero value, and `other` stands for any other dynamic value, carried by the
text `fmt` prints for it. -/
inductive Value
  | nil
  | int (n : Int)
  | str (s : String)
  | other (printed : String)
  deriving DecidableEq, Repr

/-- Text that `text/template` emits for a value (it prints with `fmt.Fprint`, and
writes `<no value>` for a nil interface). -/
def Value.print : Value → String
  | .nil => "<no value>"
  | .int n => toString n
  | .str s => s
  | .other p => p

/-- Modelled from the spec: the declaration of `core.JVMCommand` is missing from the
sources; the fields are those jvm.go reads and writes, typed as in the data model of
the specification (`Typ` is the Go field `Type`). -/
structure JVMCommand where
  Typ : String
  Port : Int
  Pid : Int
  Action : String
  LatencyDuration : String
  ThrowException : String
  ReturnValue : String
  CPUCount : Int
  MemorySize : String
  Class : String
  Method : String
  Name : String
  Do : String
  StressType : String
  StressValueName : String
  StressValue : Value
  deriving DecidableEq, Repr

/-- Record `core.Experiment`, of which jvm.go reads only `RecoverCommand`. -/
structure Experiment where
  RecoverCommand : String
  deriving DecidableEq, Repr

/-- Named constants of package `core` that jvm.go compares against.  Their values
are not part of the sources, so they are parameters.  The five action constants label
the cases of one `switch` statement, which Go only compiles when they are pairwise
different; the two type constants name the two sub-operations. -/
structure Consts where
  JVMInstallType : String
  JVMSubmitType : String
  JVMLatencyAction : String
  JVMExceptionAction : String
  JVMReturnAction : String
  JVMStressAction : String
  JVMGCAction : String
  types_ne : JVMInstallType ≠ JVMSubmitType
  actions_nodup :
    [JVMStressAction, JVMExceptionAction, JVMLatencyAction, JVMReturnAction, JVMGCAction].Nodup

/-- Modelled from the spec: concrete values for the constants of package `core`,
named after the type and action kinds of the data model. -/
def coreConsts : Consts where
  JVMInstallType := "install"
  JVMSubmitType := "submit"
  JVMLatencyAction := "latency"
  JVMExceptionAction := "exception"
  JVMReturnAction := "return"
  JVMStressAction := "stress"
  JVMGCAction := "gc"
  types_ne := by decide
  actions_nodup := by decide

/-! ## text/template: the fragment used by the three rule templates -/

/-- Parsed template node: literal text, or the action `{{.Field}}`. -/
inductive Node
  | text (s : String)
  | field (name : String)
  deriving DecidableEq, Repr

/-- Lexer state while scanning a template, with the characters read so far in
reverse: in text, in text after one left brace, inside an action, inside an action
after one right brace. -/
inductive Lex
  | text (buf : List Char)
  | brace (buf : List Char)
  | action (buf : List Char)
  | unbrace (buf : List Char)

/-- Text node for the scanned characters, none when there are no characters. -/
def textNode (buf : List Char) : List Node :=
  if buf = [] then [] else [Node.text (String.mk buf.reverse)]

/-- Scanner of a template: text up to `{{`, then an action up to `}}`, which must
be a field reference `.Name`. -/
def parseAux : List Char → Lex → Option (List Node)
  | [], .text buf => some (textNode buf)
  | [], .brace buf => some (textNode ('{' :: buf))
  | [], .action _ => none
  | [], .unbrace _ => none
  | c :: rest, .text buf =>
    if c = '{' then parseAux rest (.brace buf) else parseAux rest (.text (c :: buf))
  | c :: rest, .brace buf =>
    if c = '{' then (parseAux rest (.action [])).map (fun ns => textNode buf ++ ns)
    else parseAux rest (.text (c :: '{' :: buf))
  | c :: rest, .action buf =>
    if c = '}' then parseAux rest (.unbrace buf) else parseAux rest (.action (c :: buf))
  | c :: rest, .unbrace buf =>
    if c = '}' then
      match buf.reverse with
      | '.' :: nm => (parseAux rest (.text [])).map (fun ns => Node.field (String.mk nm) :: ns)
      | _ => none
    else parseAux rest (.action (c :: '}' :: buf))

/-- Go `template.New(..).Parse(text)`: the node list, or none on a parse error. -/
def Parse (s : String) : Option (List Node) := parseAux s.data (.text [])

/-- Go `template.Must`: the parsed template; the panic on a parse error is ruled out
by the proof that parsing succeeded. -/
def Must (t : Option (List Node)) (h : t.isSome = true) : List Node := t.get h

/-- Field of the command that an action `{{.Field}}` evaluates to, printed; none for
a name that is not a field. -/
def evalField (attack : JVMCommand) (name : String) : Option String :=
  if name = "Type" then some attack.Typ
  else if name = "Port" then some (toString attack.Port)
  else if name = "Pid" then some (toString attack.Pid)
  else if name = "Action" then some attack.Action
  else if name = "LatencyDuration" then some attack.LatencyDuration
  else if name = "ThrowException" then some attack.ThrowException
  else if name = "ReturnValue" then some attack.ReturnValue
  else if name = "CPUCount" then some (toString attack.CPUCount)
  else if name = "MemorySize" then some attack.MemorySize
  else if name = "Class" then some attack.Class
  else if name = "Method" then some attack.Method
  else if name = "Name" then some attack.Name
  else if name = "Do" then some attack.Do
  else if name = "StressType" then some attack.StressType
  else if name = "StressValueName" then some attack.StressValueName
  else if name = "StressValue" then some attack.StressValue.print
  else none

/-- Go `t.Execute(buf, attack)`: the rendered text, or the error of an action that
cannot be evaluated. -/
def Execute : List Node → JVMCommand → Except String String
  | [], _ => .ok ""
  | .text s :: ns, attack => (Execute ns attack).map (fun out => s ++ out)
  | .field f :: ns, attack =>
    match evalField attack f with
    | none => .error ("can't evaluate field " ++ f)
    | some v => (Execute ns attack).map (fun out => v ++ out)

/-! ## jvm.go: constants -/

def ruleTemplate : String :=
  "\nRULE {{.Name}}\nCLASS {{.Class}}\nMETHOD {{.Method}}\nAT ENTRY\nIF true\nDO \n\t{{.Do}};\nENDRULE\n"

def stressRuleTemplate : String :=
  "\nRULE {{.Name}}\nSTRESS {{.StressType}}\n{{.StressValueName}} {{.StressValue}}\nENDRULE\n"

def gcRuleTemplate : String :=
  "\nRULE {{.Name}}\nGC\nENDRULE\n"

/-- Go `fmt.Sprintf(bmInstallCommand, port, pid)`. -/
def bmInstallCommand (port pid : Int) : String :=
  "bminstall.sh -b -Dorg.jboss.byteman.transform.all -Dorg.jboss.byteman.verbose -p "
    ++ toString port ++ " " ++ toString pid

/-- Go `fmt.Sprintf(bmSubmitCommand, port, flag, file)`. -/
def bmSubmitCommand (port : Int) (flag file : String) : String :=
  "bmsubmit.sh -p " ++ toString port ++ " -" ++ flag ++ " " ++ file

/-! ## The operating system as explicit state -/

/-- Log level of an entry written through `log.Info` or `log.Error`. -/
inductive Level
  | info
  | error
  deriving DecidableEq, Repr

/-- One log entry: level, message, and the attached fields, each a key with the
text of its value. -/
structure LogEntry where
  level : Level
  msg : String
  fields : List (String × String)
  deriving DecidableEq, Repr

/-- State outside the program: the files that exist (name and content), the log,
the command lines run through `bash -c`, in order, and the successful writes to
files (name and bytes written), in order. -/
structure Sys where
  files : List (String × String)
  logs : List LogEntry
  cmds : List String
  writes : List (String × String)
  deriving DecidableEq, Repr

/-- Outcomes of the calls that leave the program.  `tempNames` are the names
`ioutil.TempFile` tries in turn; `writeErr` and `closeErr` are the errors of
`tmpfile.Write` and `tmpfile.Close` (none for nil); `CombinedOutput` gives, for a
command line, the captured combined output and the error of running it (none for a
zero exit); `Unmarshal` is `json.Unmarshal` into a fresh `JVMCommand`. -/
structure Env where
  tempNames : List String
  writeErr : Option String
  closeErr : Option String
  CombinedOutput : String → String × Option String
  Unmarshal : String → Except String JVMCommand

/-- Text of the error that `os/exec` returns for a helper that exits with a
non-zero status (`ExitError.Error()`). -/
def exitError (code : Nat) : String := "exit status " ++ toString code

/-- Log entry written for the outcome of a helper run: the captured output as the
message, at error level with the error attached when the run failed. -/
def helperLog (o : String) (r : Option String) : LogEntry :=
  match r with
  | some e => ⟨.error, o, [("error", e)]⟩
  | none => ⟨.info, o, []⟩

/-- Result of an operation on a command: the returned error, the command as the
operation left it behind its pointer, and the state outside. -/
structure Result where
  err : Option String
  attack : JVMCommand
  sys : Sys
  deriving DecidableEq, Repr

/-- Append one entry to the log. -/
def Sys.log (s : Sys) (level : Level) (msg : String) (fields : List (String × String)) : Sys :=
  { s with logs := s.logs ++ [⟨level, msg, fields⟩] }

/-- Names of the files that exist. -/
def Sys.names (s : Sys) : List String := s.files.map Prod.fst

/-- Go `ioutil.TempFile`: creates, empty, the first tried name that does not exist
yet (the file is opened with `O_EXCL`); an error when no name can be created. -/
def TempFile (env : Env) (s : Sys) : Except String (String × Sys) :=
  match env.tempNames.find? (fun n => decide (n ∉ s.names)) with
  | none => .error "cannot create temporary file"
  | some n => .ok (n, { s with files := (n, "") :: s.files })

/-- Go `tmpfile.Write(bytes)`: on success the file holds the bytes. -/
def Write (env : Env) (name bytes : String) (s : Sys) : Option String × Sys :=
  match env.writeErr with
  | some e => (some e, s)
  | none =>
    (none, { s with
      files := s.files.map (fun f => if f.1 = name then (name, bytes) else f)
      writes := s.writes ++ [(name, bytes)] })

/-- Go `os.Remove(name)`: the file no longer exists. -/
def Remove (name : String) (s : Sys) : Sys :=
  { s with files := s.files.filter (fun f => decide (f.1 ≠ name)) }

/-- Go `exec.Command("bash", "-c", line).CombinedOutput()`: records the command
line and returns what the environment gives for it. -/
def runBash (env : Env) (line : String) (s : Sys) : (String × Option String) × Sys :=
  (env.CombinedOutput line, { s with cmds := s.cmds ++ [line] })

/-! ## jvm.go: the operations -/

/-- Function `jvmAttack.install` (lines 75-88). -/
def install (env : Env) (attack : JVMCommand) (s : Sys) : Result :=
  let bmInstallCmd := bmInstallCommand attack.Port attack.Pid
  match runBash env bmInstallCmd s with
  | ((output, some err), s1) => ⟨some err, attack, s1.log .error output [("error", err)]⟩
  | ((output, none), s1) => ⟨none, attack, s1.log .info output []⟩

/-- First block of `jvmAttack.submit` (lines 93-113): fills `Do`, or the stress
fields, when no `Do` was supplied. -/
def submitDerive (k : Consts) (attack : JVMCommand) : JVMCommand :=
  if attack.Do.length = 0 then
    if attack.Action = k.JVMLatencyAction then
      { attack with Do := "Thread.sleep(" ++ attack.LatencyDuration ++ ")" }
    else if attack.Action = k.JVMExceptionAction then
      { attack with Do := "throw new " ++ attack.ThrowException }
    else if attack.Action = k.JVMReturnAction then
      { attack with Do := "return " ++ attack.ReturnValue }
    else if attack.Action = k.JVMStressAction then
      if attack.CPUCount > 0 then
        { attack with
          StressType := "CPU", StressValueName := "CPUCOUNT",
          StressValue := .int attack.CPUCount }
      else
        { attack with
          StressType := "MEMORY", StressValueName := "MEMORYSIZE",
          StressValue := .str attack.MemorySize }
    else attack
  else attack

/-- Second block of `jvmAttack.submit` (lines 117-127): the template for the
action, or the error for an action outside the five. -/
def submitTemplate (k : Consts) (attack : JVMCommand) : Except String (List Node) :=
  if attack.Action = k.JVMStressAction then
    .ok (Must (Parse stressRuleTemplate) (by decide))
  else if attack.Action = k.JVMExceptionAction ∨ attack.Action = k.JVMLatencyAction
      ∨ attack.Action = k.JVMReturnAction then
    .ok (Must (Parse ruleTemplate) (by decide))
  else if attack.Action = k.JVMGCAction then
    .ok (Must (Parse gcRuleTemplate) (by decide))
  else .error ("jvm action " ++ attack.Action ++ " not supported")

/-- Tail shared by `submit` (lines 141-167) and `Recover` (lines 186-213): create the
temporary file, write the rule, close, run `bmsubmit.sh` with the flag, and remove
the file on every return after its creation (the deferred `os.Remove`).  The two
callers log the file name at different points, `submit` right after creating the
file (`logEarly`), `Recover` after closing it. -/
def submitFile (env : Env) (logEarly : Bool) (flag : String) (attack : JVMCommand)
    (buf : String) (s : Sys) : Option String × Sys :=
  match TempFile env s with
  | .error e => (some e, s)
  | .ok (name, s1) =>
    let s2 := if logEarly then s1.log .info "create btm file" [("file", name)] else s1
    let r : Option String × Sys :=
      match Write env name buf s2 with
      | (some e, s3) => (some e, s3)
      | (none, s3) =>
        match env.closeErr with
        | some e => (some e, s3)
        | none =>
          let s4 := if logEarly then s3 else s3.log .info "create btm file" [("file", name)]
          let bmSubmitCmd := bmSubmitCommand attack.Port flag name
          match runBash env bmSubmitCmd s4 with
          | ((output, some err), s5) => (some err, s5.log .error output [("error", err)])
          | ((output, none), s5) => (none, s5.log .info output [])
    (r.1, Remove name r.2)

/-- Function `jvmAttack.submit` (lines 90-168). -/
def submit (k : Consts) (env : Env) (attack0 : JVMCommand) (s : Sys) : Result :=
  let attack := submitDerive k attack0
  match submitTemplate k attack with
  | .error e => ⟨some e, attack, s⟩
  | .ok t =>
    match Execute t attack with
    | .error e => ⟨some e, attack, s.log .error "executing template" [("error", e)]⟩
    | .ok buf =>
      let s1 := s.log .info "byteman rule" [("rule", buf)]
      let r := submitFile env true "l" attack buf s1
      ⟨r.1, attack, r.2⟩

/-- Function `jvmAttack.Attack` (lines 63-73). -/
def Attack (k : Consts) (env : Env) (attack : JVMCommand) (s : Sys) : Result :=
  if attack.Typ = k.JVMInstallType then install env attack s
  else if attack.Typ = k.JVMSubmitType then submit k env attack s
  else ⟨some ("attack type " ++ attack.Typ ++ " not supported"), attack, s⟩

/-- Function `jvmAttack.Recover` (lines 170-214): the returned error and the state
outside. -/
def Recover (env : Env) (exp : Experiment) (s : Sys) : Option String × Sys :=
  match env.Unmarshal exp.RecoverCommand with
  | .error e => (some e, s)
  | .ok attack =>
    let t := Must (Parse ruleTemplate) (by decide)
    match Execute t attack with
    | .error e => (some e, s.log .error "executing template" [("error", e)])
    | .ok buf => submitFile env false "u" attack buf s

/-- Rule text that `submit` renders for a command: derivation, template selection
and execution, without the file and helper steps. -/
def submitRule (k : Consts) (attack0 : JVMCommand) : Except String String :=
  match submitTemplate k (submitDerive k attack0) with
  | .error e => .error e
  | .ok t => Execute t (submitDerive k attack0)

/-- Rule text that `Recover` renders for the deserialized command. -/
def recoverRule (attack : JVMCommand) : Except String String :=
  Execute (Must (Parse ruleTemplate) (by decide)) attack

end chaosd

/-! ## process_command.go -/

namespace command

/-- Record `core.ProcessCommand` as the command function builds it; `Signal` is the
signal number. -/
structure ProcessCommand where
  Process : String
  Signal : Nat
  deriving DecidableEq, Repr

/-- Go `syscall.SIGKILL`. -/
def SIGKILL : Nat := 9

/-- What one run of the command function did: whether the client was constructed,
the requests passed to `CreateProcessAttack`, the lines printed to standard output,
and the exit status with the error text when the run ended in `ExitWithError` (none
when the function returned). -/
structure Run where
  clientBuilt : Bool
  requests : List ProcessCommand
  printed : List String
  exit : Option (Int × String)
  deriving DecidableEq, Repr

/-- Parts of package `command` and of the client that are not in the sources: the
exit statuses `ExitBadArgs` and `ExitError`, the outcome of `mustClientFromCmd` (none
when the client is constructed, otherwise the status and error it exits with), and
the reply of `CreateProcessAttack` to a request. -/
structure CmdEnv where
  ExitBadArgs : Int
  ExitError : Int
  mustClientFromCmd : Option (Int × String)
  CreateProcessAttack : ProcessCommand → Except String String

/-- Modelled from the spec: `ExitWithError` is missing from the sources; the command
"exits with a bad arguments status before any request is dispatched", so the call
ends the run with the given status and error and nothing after it is executed. -/
def ExitWithError (code : Int) (err : String) (r : Run) : Run :=
  { r with exit := some (code, err) }

/-- Function `processKillCommandFunc` (lines 55-72); `process` is the package
variable bound to the `--process` flag, empty when the flag is not given. -/
def processKillCommandFunc (env : CmdEnv) (process : String) : Run :=
  if process.length = 0 then
    ExitWithError env.ExitBadArgs "process not provided" ⟨false, [], [], none⟩
  else
    match env.mustClientFromCmd with
    | some (code, err) => ExitWithError code err ⟨false, [], [], none⟩
    | none =>
      let req : ProcessCommand := ⟨process, SIGKILL⟩
      match env.CreateProcessAttack req with
      | .error err => ExitWithError env.ExitError err ⟨true, [req], [], none⟩
      | .ok resp => ⟨true, [req], [resp], none⟩

end command

/-! ## Concrete inputs -/

namespace chaosd

/-- State with no files, an empty log and no commands run. -/
def sys0 : Sys := ⟨[], [], [], []⟩

/-- Submit command for the GC action on rule `r`, as a caller builds it. -/
def gcCommand : JVMCommand :=
  { Typ := "submit", Port := 9288, Pid := 0, Action := "gc", LatencyDuration := "",
    ThrowException := "", ReturnValue := "", CPUCount := 0, MemorySize := "", Class := "",
    Method := "", Name := "r", Do := "", StressType := "", StressValueName := "",
    StressValue := .nil }

/-- Submit command for the Stress action with two CPUs on rule `r`. -/
def stressCommand : JVMCommand := { gcCommand with Action := "stress", CPUCount := 2 }

/-- Submit command for the Stress action with no CPU count and memory size 1GB. -/
def memoryCommand : JVMCommand :=
  { gcCommand with
    Action := "stress", MemorySize := "1GB" }

/-- The Stress command as `submit` leaves it: the stress fields derived. -/
def stressLoaded : JVMCommand :=
  { stressCommand with
    StressType := "CPU", StressValueName := "CPUCOUNT", StressValue := Value.int 2 }

/-- Stress command with a supplied `do` and caller-given stress fields. -/
def stressSupplied : JVMCommand :=
  { stressCommand with
    Do := "x", StressType := "HEAP", StressValueName := "SIZE", StressValue := Value.str "1GB" }

/-- GC command with a supplied `do`. -/
def gcSupplied : JVMCommand :=
  { gcCommand with
    Do := "x" }

/-- Submit command for the Latency action on `Main.run` with duration 500. -/
def latencyCommand : JVMCommand :=
  { gcCommand with Action := "latency", LatencyDuration := "500", Class := "Main", Method := "run" }

/-- Latency command on `Main.run` with a supplied `do`. -/
def latencySupplied : JVMCommand :=
  { latencyCommand with
    Do := "x" }

/-- Submit command with an action outside the five. -/
def otherCommand : JVMCommand := { gcCommand with Action := "reboot" }

/-- Environment in which every call succeeds, the helper prints `ok`, and the stored
recovery text deserializes to the given command. -/
def envOk (stored : JVMCommand) : Env :=
  { tempNames := ["/tmp/rule.btm1"], writeErr := none, closeErr := none,
    CombinedOutput := fun _ => ("ok", none), Unmarshal := fun _ => .ok stored }

/-- Environment in which the helper prints `boom` and exits with status 1. -/
def envFail (stored : JVMCommand) : Env :=
  { envOk stored with CombinedOutput := fun _ => ("boom", some (exitError 1)) }

end chaosd

namespace command

/-- Environment of the command line tool whose client is constructed and whose
server answers `done`. -/
def cmdEnvOk : CmdEnv :=
  { ExitBadArgs := 128, ExitError := 1, mustClientFromCmd := none,
    CreateProcessAttack := fun _ => .ok "done" }

end command

/-! ## Lemmas on templates, derivation and template selection -/

namespace chaosd

theorem must_ruleTemplate :
    Must (Parse ruleTemplate) (by decide) =
      [.text "\nRULE ", .field "Name", .text "\nCLASS ", .field "Class", .text "\nMETHOD ",
       .field "Method", .text "\nAT ENTRY\nIF true\nDO \n\t", .field "Do", .text ";\nENDRULE\n"] := by
  decide

theorem must_stressRuleTemplate :
    Must (Parse stressRuleTemplate) (by decide) =
      [.text "\nRULE ", .field "Name", .text "\nSTRESS ", .field "StressType", .text "\n",
       .field "StressValueName", .text " ", .field "StressValue", .text "\nENDRULE\n"] := by
  decide

theorem must_gcRuleTemplate :
    Must (Parse gcRuleTemplate) (by decide) =
      [.text "\nRULE ", .field "Name", .text "\nGC\nENDRULE\n"] := by
  decide

theorem execute_ruleTemplate (a : JVMCommand) :
    Execute (Must (Parse ruleTemplate) (by decide)) a =
      .ok ("\nRULE " ++ a.Name ++ "\nCLASS " ++ a.Class ++ "\nMETHOD " ++ a.Method
        ++ "\nAT ENTRY\nIF true\nDO \n\t" ++ a.Do ++ ";\nENDRULE\n") := by
  rw [must_ruleTemplate]
  simp [Execute, evalField, Except.map, String.append_assoc]

theorem execute_stressRuleTemplate (a : JVMCommand) :
    Execute (Must (Parse stressRuleTemplate) (by decide)) a =
      .ok ("\nRULE " ++ a.Name ++ "\nSTRESS " ++ a.StressType ++ "\n" ++ a.StressValueName
        ++ " " ++ a.StressValue.print ++ "\nENDRULE\n") := by
  rw [must_stressRuleTemplate]
  simp [Execute, evalField, Except.map, String.append_assoc]

theorem execute_gcRuleTemplate (a : JVMCommand) :
    Execute (Must (Parse gcRuleTemplate) (by decide)) a =
      .ok ("\nRULE " ++ a.Name ++ "\nGC\nENDRULE\n") := by
  rw [must_gcRuleTemplate]
  simp [Execute, evalField, Except.map, String.append_assoc]

theorem length_eq_zero_iff (s : String) : s.length = 0 ↔ s = "" := by
  constructor
  · intro h
    have h1 : s.data = [] := List.length_eq_zero.mp h
    exact String.ext h1
  · intro h
    subst h
    rfl

theorem submitDerive_of_supplied (k : Consts) (c : JVMCommand) (h : c.Do ≠ "") :
    submitDerive k c = c := by
  have h1 : ¬ c.Do.length = 0 := fun h0 => h ((length_eq_zero_iff _).mp h0)
  simp [submitDerive, h1]

theorem submitDerive_Action (k : Consts) (c : JVMCommand) :
    (submitDerive k c).Action = c.Action := by
  unfold submitDerive
  split_ifs <;> rfl

theorem submitDerive_Name (k : Consts) (c : JVMCommand) :
    (submitDerive k c).Name = c.Name := by
  unfold submitDerive
  split_ifs <;> rfl

theorem submitDerive_Class (k : Consts) (c : JVMCommand) :
    (submitDerive k c).Class = c.Class := by
  unfold submitDerive
  split_ifs <;> rfl

theorem submitDerive_Method (k : Consts) (c : JVMCommand) :
    (submitDerive k c).Method = c.Method := by
  unfold submitDerive
  split_ifs <;> rfl

theorem submitDerive_Port (k : Consts) (c : JVMCommand) :
    (submitDerive k c).Port = c.Port := by
  unfold submitDerive
  split_ifs <;> rfl

theorem submitTemplate_congr (k : Consts) (a b : JVMCommand) (h : a.Action = b.Action) :
    submitTemplate k a = submitTemplate k b := by
  simp [submitTemplate, h]

/-- Pairwise difference of the five action constants. -/
theorem Consts.actions_ne (k : Consts) :
    k.JVMStressAction ≠ k.JVMExceptionAction ∧ k.JVMStressAction ≠ k.JVMLatencyAction ∧
    k.JVMStressAction ≠ k.JVMReturnAction ∧ k.JVMStressAction ≠ k.JVMGCAction ∧
    k.JVMExceptionAction ≠ k.JVMLatencyAction ∧ k.JVMExceptionAction ≠ k.JVMReturnAction ∧
    k.JVMExceptionAction ≠ k.JVMGCAction ∧ k.JVMLatencyAction ≠ k.JVMReturnAction ∧
    k.JVMLatencyAction ≠ k.JVMGCAction ∧ k.JVMReturnAction ≠ k.JVMGCAction := by
  have h := k.actions_nodup
  simp only [List.nodup_cons, List.mem_cons, List.mem_singleton, not_or, List.not_mem_nil,
    not_false_eq_true, List.nodup_nil, and_true] at h
  obtain ⟨⟨a1, a2, a3, a4⟩, ⟨b1, b2, b3⟩, ⟨c1, c2⟩, d1⟩ := h
  exact ⟨a1, a2, a3, a4, b1, b2, b3, c1, c2, d1⟩

theorem submitTemplate_entry (k : Consts) (a : JVMCommand)
    (h : a.Action = k.JVMLatencyAction ∨ a.Action = k.JVMExceptionAction
      ∨ a.Action = k.JVMReturnAction) :
    submitTemplate k a = .ok (Must (Parse ruleTemplate) (by decide)) := by
  obtain ⟨a1, a2, a3, -⟩ := k.actions_ne
  have hs : a.Action ≠ k.JVMStressAction := by
    rcases h with h | h | h <;> rw [h]
    · exact fun e => a2 e.symm
    · exact fun e => a1 e.symm
    · exact fun e => a3 e.symm
  have h2 : a.Action = k.JVMExceptionAction ∨ a.Action = k.JVMLatencyAction
      ∨ a.Action = k.JVMReturnAction := by tauto
  simp [submitTemplate, hs, h2]

theorem submitTemplate_stress (k : Consts) (a : JVMCommand) (h : a.Action = k.JVMStressAction) :
    submitTemplate k a = .ok (Must (Parse stressRuleTemplate) (by decide)) := by
  simp [submitTemplate, h]

theorem submitTemplate_gc (k : Consts) (a : JVMCommand) (h : a.Action = k.JVMGCAction) :
    submitTemplate k a = .ok (Must (Parse gcRuleTemplate) (by decide)) := by
  obtain ⟨-, -, -, a4, -, -, b3, -, c2, d1⟩ := k.actions_ne
  have hs : k.JVMGCAction ≠ k.JVMStressAction := fun e => a4 e.symm
  have h1 : k.JVMGCAction ≠ k.JVMExceptionAction := fun e => b3 e.symm
  have h2 : k.JVMGCAction ≠ k.JVMLatencyAction := fun e => c2 e.symm
  have h3 : k.JVMGCAction ≠ k.JVMReturnAction := fun e => d1 e.symm
  simp [submitTemplate, h, hs, h1, h2, h3]

theorem submitTemplate_other (k : Consts) (a : JVMCommand)
    (h : a.Action ∉ [k.JVMLatencyAction, k.JVMExceptionAction, k.JVMReturnAction,
      k.JVMStressAction, k.JVMGCAction]) :
    submitTemplate k a = .error ("jvm action " ++ a.Action ++ " not supported") := by
  simp only [List.mem_cons, List.mem_singleton, not_or, List.not_mem_nil, not_false_eq_true,
    and_true] at h
  obtain ⟨h1, h2, h3, h4, h5⟩ := h
  simp [submitTemplate, h1, h2, h3, h4, h5]

theorem submitDerive_other (k : Consts) (a : JVMCommand)
    (h : a.Action ∉ [k.JVMLatencyAction, k.JVMExceptionAction, k.JVMReturnAction,
      k.JVMStressAction, k.JVMGCAction]) :
    submitDerive k a = a := by
  simp only [List.mem_cons, List.mem_singleton, not_or, List.not_mem_nil, not_false_eq_true,
    and_true] at h
  obtain ⟨h1, h2, h3, h4, h5⟩ := h
  simp [submitDerive, h1, h2, h3, h4]

end chaosd

/-! ## Rule text rendered by submit -/

namespace chaosd

theorem submit_attack (k : Consts) (env : Env) (c : JVMCommand) (s : Sys) :
    (submit k env c s).attack = submitDerive k c := by
  unfold submit
  dsimp only
  split
  · rfl
  · split <;> rfl

theorem submitRule_entry (k : Consts) (c : JVMCommand)
    (h : c.Action = k.JVMLatencyAction ∨ c.Action = k.JVMExceptionAction
      ∨ c.Action = k.JVMReturnAction) :
    submitRule k c = .ok ("\nRULE " ++ c.Name ++ "\nCLASS " ++ c.Class ++ "\nMETHOD " ++ c.Method
      ++ "\nAT ENTRY\nIF true\nDO \n\t" ++ (submitDerive k c).Do ++ ";\nENDRULE\n") := by
  unfold submitRule
  rw [submitTemplate_entry k (submitDerive k c) (by rw [submitDerive_Action]; exact h)]
  simp only [execute_ruleTemplate, submitDerive_Name, submitDerive_Class, submitDerive_Method]

theorem submitRule_stress (k : Consts) (c : JVMCommand) (h : c.Action = k.JVMStressAction) :
    submitRule k c = .ok ("\nRULE " ++ c.Name ++ "\nSTRESS " ++ (submitDerive k c).StressType
      ++ "\n" ++ (submitDerive k c).StressValueName ++ " "
      ++ (submitDerive k c).StressValue.print ++ "\nENDRULE\n") := by
  unfold submitRule
  rw [submitTemplate_stress k (submitDerive k c) (by rw [submitDerive_Action]; exact h)]
  simp only [execute_stressRuleTemplate, submitDerive_Name]

theorem submitRule_gc (k : Consts) (c : JVMCommand) (h : c.Action = k.JVMGCAction) :
    submitRule k c = .ok ("\nRULE " ++ c.Name ++ "\nGC\nENDRULE\n") := by
  unfold submitRule
  rw [submitTemplate_gc k (submitDerive k c) (by rw [submitDerive_Action]; exact h)]
  simp only [execute_gcRuleTemplate, submitDerive_Name]

theorem submitDerive_latency (k : Consts) (c : JVMCommand) (hd : c.Do = "")
    (h : c.Action = k.JVMLatencyAction) :
    submitDerive k c = { c with Do := "Thread.sleep(" ++ c.LatencyDuration ++ ")" } := by
  have h0 : c.Do.length = 0 := (length_eq_zero_iff _).mpr hd
  simp [submitDerive, h0, h]

theorem submitDerive_exception (k : Consts) (c : JVMCommand) (hd : c.Do = "")
    (h : c.Action = k.JVMExceptionAction) :
    submitDerive k c = { c with Do := "throw new " ++ c.ThrowException } := by
  have h0 : c.Do.length = 0 := (length_eq_zero_iff _).mpr hd
  obtain ⟨-, -, -, -, b1, -⟩ := k.actions_ne
  simp [submitDerive, h0, h, b1]

theorem submitDerive_return (k : Consts) (c : JVMCommand) (hd : c.Do = "")
    (h : c.Action = k.JVMReturnAction) :
    submitDerive k c = { c with Do := "return " ++ c.ReturnValue } := by
  have h0 : c.Do.length = 0 := (length_eq_zero_iff _).mpr hd
  obtain ⟨-, -, -, -, -, b2, -, c1, -⟩ := k.actions_ne
  simp [submitDerive, h0, h, Ne.symm b2, Ne.symm c1]

theorem submitDerive_stress (k : Consts) (c : JVMCommand) (hd : c.Do = "")
    (h : c.Action = k.JVMStressAction) :
    submitDerive k c =
      if c.CPUCount > 0 then
        { c with StressType := "CPU", StressValueName := "CPUCOUNT",
                 StressValue := .int c.CPUCount }
      else
        { c with StressType := "MEMORY", StressValueName := "MEMORYSIZE",
                 StressValue := .str c.MemorySize } := by
  have h0 : c.Do.length = 0 := (length_eq_zero_iff _).mpr hd
  obtain ⟨a1, a2, a3, -⟩ := k.actions_ne
  simp [submitDerive, h0, h, a1, a2, a3]

theorem submitDerive_gc (k : Consts) (c : JVMCommand) (h : c.Action = k.JVMGCAction) :
    submitDerive k c = c := by
  obtain ⟨-, -, -, a4, -, -, b3, -, c2, d1⟩ := k.actions_ne
  simp [submitDerive, h, Ne.symm a4, Ne.symm b3, Ne.symm c2, Ne.symm d1]

theorem sprintf_length_ne_zero (p x : String) (hp : p.length ≠ 0) : ¬ (p ++ x).length = 0 := by
  rw [String.length_append]
  omega

theorem submitDerive_idem (k : Consts) (c : JVMCommand) :
    submitDerive k (submitDerive k c) = submitDerive k c := by
  by_cases hd : c.Do = ""
  · by_cases h1 : c.Action = k.JVMLatencyAction
    · rw [submitDerive_latency k c hd h1]
      apply submitDerive_of_supplied
      intro e
      have h := (length_eq_zero_iff _).mpr e
      simp only [String.length_append] at h
      have h13 : "Thread.sleep(".length = 13 := by decide
      omega
    · by_cases h2 : c.Action = k.JVMExceptionAction
      · rw [submitDerive_exception k c hd h2]
        apply submitDerive_of_supplied
        intro e
        have h := (length_eq_zero_iff _).mpr e
        simp only [String.length_append] at h
        have h10 : "throw new ".length = 10 := by decide
        omega
      · by_cases h3 : c.Action = k.JVMReturnAction
        · rw [submitDerive_return k c hd h3]
          apply submitDerive_of_supplied
          intro e
          have h := (length_eq_zero_iff _).mpr e
          simp only [String.length_append] at h
          have h7 : "return ".length = 7 := by decide
          omega
        · by_cases h4 : c.Action = k.JVMStressAction
          · rw [submitDerive_stress k c hd h4]
            split_ifs with hc
            · refine (submitDerive_stress k _ ?_ ?_).trans ?_
              · exact hd
              · exact h4
              · simp [hc]
            · refine (submitDerive_stress k _ ?_ ?_).trans ?_
              · exact hd
              · exact h4
              · simp [hc]
          · have h0 : c.Do.length = 0 := (length_eq_zero_iff _).mpr hd
            have e : submitDerive k c = c := by simp [submitDerive, h0, h1, h2, h3, h4]
            rw [e, e]
  · rw [submitDerive_of_supplied k c hd, submitDerive_of_supplied k c hd]

end chaosd

/-! ## The temporary rule file -/

namespace chaosd

theorem filter_update (name bytes : String) (fs : List (String × String)) :
    (fs.map (fun f => if f.1 = name then (name, bytes) else f)).filter
        (fun f => decide (f.1 ≠ name)) =
      fs.filter (fun f => decide (f.1 ≠ name)) := by
  induction fs with
  | nil => rfl
  | cons f fs ih =>
    by_cases h : f.1 = name
    · simp only [List.map_cons, h, if_true, List.filter_cons, ne_eq, not_true_eq_false,
        decide_False, Bool.false_eq_true, if_false]
      exact ih
    · simp only [List.map_cons, h, if_false, List.filter_cons, ne_eq, not_false_eq_true,
        decide_True, if_true]
      rw [ih]

theorem filter_absent (name : String) (fs : List (String × String))
    (h : name ∉ fs.map Prod.fst) :
    fs.filter (fun f => decide (f.1 ≠ name)) = fs := by
  rw [List.filter_eq_self]
  intro f hf
  have : f.1 ≠ name := by
    intro e
    apply h
    rw [← e]
    exact List.mem_map_of_mem Prod.fst hf
  exact decide_eq_true this

theorem remove_created (name : String) (fs : List (String × String))
    (h : name ∉ fs.map Prod.fst) :
    ((name, "") :: fs).filter (fun f => decide (f.1 ≠ name)) = fs := by
  simp only [List.filter_cons, ne_eq, not_true_eq_false, decide_False, Bool.false_eq_true,
    if_false]
  exact filter_absent name fs h

theorem remove_written (name bytes : String) (fs : List (String × String))
    (h : name ∉ fs.map Prod.fst) :
    (((name, "") :: fs).map (fun f => if f.1 = name then (name, bytes) else f)).filter
      (fun f => decide (f.1 ≠ name)) = fs := by
  rw [filter_update]
  exact remove_created name fs h

theorem TempFile_error (env : Env) (s : Sys)
    (h : env.tempNames.find? (fun n => decide (n ∉ s.names)) = none) :
    TempFile env s = .error "cannot create temporary file" := by
  unfold TempFile
  rw [h]

theorem TempFile_ok (env : Env) (s : Sys) (name : String)
    (h : env.tempNames.find? (fun n => decide (n ∉ s.names)) = some name) :
    TempFile env s = .ok (name, { s with files := (name, "") :: s.files }) := by
  unfold TempFile
  rw [h]

theorem TempFile_fresh (env : Env) (s : Sys) (name : String)
    (h : env.tempNames.find? (fun n => decide (n ∉ s.names)) = some name) :
    name ∉ s.files.map Prod.fst := by
  have := List.find?_some h
  exact of_decide_eq_true this

/-- Removing the temporary file after any of the steps that follow its creation
gives back the files that existed before. -/
theorem submitFile_files (env : Env) (logEarly : Bool) (flag : String) (attack : JVMCommand)
    (buf : String) (s : Sys) :
    (submitFile env logEarly flag attack buf s).2.files = s.files := by
  unfold submitFile
  cases hf : env.tempNames.find? (fun n => decide (n ∉ s.names)) with
  | none => rw [TempFile_error env s hf]
  | some name =>
    rw [TempFile_ok env s name hf]
    have hfresh := TempFile_fresh env s name hf
    have h1 := remove_created name s.files hfresh
    have h2 := remove_written name buf s.files hfresh
    cases hw : env.writeErr with
    | some e =>
      cases logEarly <;> simp only [Write, hw, Remove, Sys.log, Bool.false_eq_true, if_false, if_true, h1]
    | none =>
      cases hc : env.closeErr with
      | some e =>
        cases logEarly <;> simp only [Write, hw, hc, Remove, Sys.log, Bool.false_eq_true, if_false, if_true, h2]
      | none =>
        cases logEarly <;>
          rcases hr : env.CombinedOutput (bmSubmitCommand attack.Port flag name) with ⟨o, _ | e⟩ <;>
          simp only [Write, hw, hc, Remove, Sys.log, runBash, hr, Bool.false_eq_true, if_false,
            if_true, h2]

end chaosd

/-! ## The helper invocation of submit and Recover -/

namespace chaosd

theorem submitFile_helper (env : Env) (logEarly : Bool) (flag : String) (attack : JVMCommand)
    (buf : String) (s : Sys) (name o : String) (r : Option String)
    (hf : env.tempNames.find? (fun n => decide (n ∉ s.names)) = some name)
    (hw : env.writeErr = none) (hc : env.closeErr = none)
    (hr : env.CombinedOutput (bmSubmitCommand attack.Port flag name) = (o, r)) :
    (submitFile env logEarly flag attack buf s).1 = r ∧
    (submitFile env logEarly flag attack buf s).2.logs =
      s.logs ++ [⟨.info, "create btm file", [("file", name)]⟩] ++ [helperLog o r] ∧
    (submitFile env logEarly flag attack buf s).2.cmds =
      s.cmds ++ [bmSubmitCommand attack.Port flag name] ∧
    (submitFile env logEarly flag attack buf s).2.writes = s.writes ++ [(name, buf)] := by
  unfold submitFile
  rw [TempFile_ok env s name hf]
  cases logEarly <;> cases r <;>
    simp only [Write, hw, hc, Remove, Sys.log, runBash, hr, Bool.false_eq_true, if_false,
      if_true, helperLog, and_self]

theorem submitRule_ok (k : Consts) (c : JVMCommand) (buf : String)
    (h : submitRule k c = .ok buf) :
    ∃ t, submitTemplate k (submitDerive k c) = .ok t ∧ Execute t (submitDerive k c) = .ok buf := by
  unfold submitRule at h
  split at h
  · exact absurd h (by simp)
  · next t ht => exact ⟨t, ht, h⟩

theorem submit_of_rule (k : Consts) (env : Env) (c : JVMCommand) (s : Sys) (buf : String)
    (h : submitRule k c = .ok buf) :
    submit k env c s =
      ⟨(submitFile env true "l" (submitDerive k c) buf
          (s.log .info "byteman rule" [("rule", buf)])).1,
        submitDerive k c,
        (submitFile env true "l" (submitDerive k c) buf
          (s.log .info "byteman rule" [("rule", buf)])).2⟩ := by
  obtain ⟨t, ht, he⟩ := submitRule_ok k c buf h
  unfold submit
  simp only [ht, he]

theorem submit_files (k : Consts) (env : Env) (c : JVMCommand) (s : Sys) :
    (submit k env c s).sys.files = s.files := by
  unfold submit
  dsimp only
  split
  · rfl
  · split
    · rfl
    · exact submitFile_files env true "l" _ _ _

theorem Recover_files (env : Env) (exp : Experiment) (s : Sys) :
    (Recover env exp s).2.files = s.files := by
  unfold Recover
  split
  · rfl
  · dsimp only
    split
    · rfl
    · exact submitFile_files env false "u" _ _ _

theorem Recover_of_rule (env : Env) (exp : Experiment) (s : Sys) (attack : JVMCommand)
    (buf : String) (hu : env.Unmarshal exp.RecoverCommand = .ok attack)
    (h : recoverRule attack = .ok buf) :
    Recover env exp s = submitFile env false "u" attack buf s := by
  unfold recoverRule at h
  unfold Recover
  simp only [hu, h]

end chaosd

/-! ## Claims on rule generation -/

namespace chaosd

/-- For the three method-entry actions `Recover` regenerates the rule text that
`submit` rendered. -/
theorem recoverRule_entry (k : Consts) (c : JVMCommand)
    (h : c.Action = k.JVMLatencyAction ∨ c.Action = k.JVMExceptionAction
      ∨ c.Action = k.JVMReturnAction) :
    recoverRule (submitDerive k c) = submitRule k c := by
  rw [submitRule_entry k c h]
  unfold recoverRule
  simp only [execute_ruleTemplate, submitDerive_Name, submitDerive_Class, submitDerive_Method]

/-- C1 (divergence): a GC command and a Stress command are loaded by `submit` with
the GC rule and the stress rule, and `Recover`, given the stored command exactly as
`submit` left it, writes the method-entry rule instead, so the text to unload is
not the text that was loaded. -/
theorem recover_rule_differs_from_submit :
    ((submit coreConsts (envOk gcCommand) gcCommand sys0).attack = gcCommand ∧
      (submit coreConsts (envOk gcCommand) gcCommand sys0).sys.writes =
        [("/tmp/rule.btm1", "\nRULE r\nGC\nENDRULE\n")] ∧
      (Recover (envOk gcCommand) ⟨"stored"⟩ sys0).2.writes =
        [("/tmp/rule.btm1",
          "\nRULE r\nCLASS \nMETHOD \nAT ENTRY\nIF true\nDO \n\t;\nENDRULE\n")]) ∧
    ((submit coreConsts (envOk gcCommand) stressCommand sys0).attack = stressLoaded ∧
      (submit coreConsts (envOk gcCommand) stressCommand sys0).sys.writes =
        [("/tmp/rule.btm1", "\nRULE r\nSTRESS CPU\nCPUCOUNT 2\nENDRULE\n")] ∧
      (Recover (envOk stressLoaded) ⟨"stored"⟩ sys0).2.writes =
        [("/tmp/rule.btm1",
          "\nRULE r\nCLASS \nMETHOD \nAT ENTRY\nIF true\nDO \n\t;\nENDRULE\n")]) := by
  decide

theorem entry_tail_500 :
    "\nAT ENTRY\nIF true\nDO \n\t" ++ ("Thread.sleep(" ++ "500" ++ ")") ++ ";\nENDRULE\n" =
      "\nAT ENTRY\nIF true\nDO \n\tThread.sleep(500);\nENDRULE\n" := by
  decide

/-- C2: `submit` renders the method-entry grammar for Latency, Exception and Return
with name, class, method and do substituted verbatim, the stress grammar for Stress
and the GC grammar for GC; for Latency with duration 500 and no supplied do the line
after `DO` and before `ENDRULE` is `Thread.sleep(500);`. -/
theorem submit_renders_grammar_of_action (k : Consts) (c : JVMCommand) :
    ((c.Action = k.JVMLatencyAction ∨ c.Action = k.JVMExceptionAction
        ∨ c.Action = k.JVMReturnAction) →
      submitRule k c = .ok ("\nRULE " ++ c.Name ++ "\nCLASS " ++ c.Class ++ "\nMETHOD "
        ++ c.Method ++ "\nAT ENTRY\nIF true\nDO \n\t" ++ (submitDerive k c).Do
        ++ ";\nENDRULE\n")) ∧
    (c.Action = k.JVMStressAction →
      submitRule k c = .ok ("\nRULE " ++ c.Name ++ "\nSTRESS " ++ (submitDerive k c).StressType
        ++ "\n" ++ (submitDerive k c).StressValueName ++ " "
        ++ (submitDerive k c).StressValue.print ++ "\nENDRULE\n")) ∧
    (c.Action = k.JVMGCAction →
      submitRule k c = .ok ("\nRULE " ++ c.Name ++ "\nGC\nENDRULE\n")) ∧
    (c.Action = k.JVMLatencyAction → c.LatencyDuration = "500" → c.Do = "" →
      submitRule k c = .ok ("\nRULE " ++ c.Name ++ "\nCLASS " ++ c.Class ++ "\nMETHOD "
        ++ c.Method ++ "\nAT ENTRY\nIF true\nDO \n\tThread.sleep(500);\nENDRULE\n")) ∧
    (∀ (env : Env) (s : Sys) (buf name : String), submitRule k c = .ok buf →
      env.tempNames.find? (fun n => decide (n ∉ s.names)) = some name →
      env.writeErr = none → (submit k env c s).sys.writes = s.writes ++ [(name, buf)]) := by
  refine ⟨submitRule_entry k c, submitRule_stress k c, submitRule_gc k c, ?_, ?_⟩
  · intro h h500 hd
    rw [submitRule_entry k c (Or.inl h), submitDerive_latency k c hd h, h500]
    simp only [String.append_assoc]
    have e := entry_tail_500
    simp only [String.append_assoc] at e
    rw [e]
  · intro env s buf name hb hf hw
    rw [submit_of_rule k env c s buf hb]
    show (submitFile env true "l" (submitDerive k c) buf
      (s.log .info "byteman rule" [("rule", buf)])).2.writes = _
    unfold submitFile
    rw [TempFile_ok env (s.log .info "byteman rule" [("rule", buf)]) name hf]
    cases hc : env.closeErr with
    | some e => simp only [Write, hw, Remove, Sys.log, if_true]
    | none =>
      rcases hr : env.CombinedOutput (bmSubmitCommand (submitDerive k c).Port "l" name)
        with ⟨o, _ | e⟩ <;>
      simp only [Write, hw, Remove, Sys.log, runBash, hr, if_true]

/-- Witness of C2: the Latency command with duration 500. -/
theorem submit_renders_grammar_of_action_witness :
    submitRule coreConsts latencyCommand = .ok
      ("\nRULE " ++ "r" ++ "\nCLASS " ++ "Main" ++ "\nMETHOD " ++ "run"
        ++ "\nAT ENTRY\nIF true\nDO \n\tThread.sleep(500);\nENDRULE\n") :=
  (submit_renders_grammar_of_action coreConsts latencyCommand).2.2.2.1 rfl rfl rfl

end chaosd

/-! ## Claims on the derivation step -/

namespace chaosd

/-- C3 (counterexample): it is not the case that for every command with one of the
five actions a supplied do is the string rendered; the GC command on rule `r` with
do `x` is rendered as the GC rule, whose text does not contain the do. -/
theorem supplied_do_not_rendered_for_gc :
    ¬ ∀ (k : Consts) (env : Env) (c : JVMCommand) (s : Sys),
        c.Action ∈ [k.JVMLatencyAction, k.JVMExceptionAction, k.JVMReturnAction,
          k.JVMStressAction, k.JVMGCAction] →
        c.Do ≠ "" →
        (submit k env c s).attack.Do = c.Do ∧
        ∃ text, submitRule k c = .ok text ∧ c.Do.data <:+: text.data := by
  intro h
  obtain ⟨-, text, ht, hin⟩ :=
    h coreConsts (envOk gcSupplied) gcSupplied sys0 (by decide) (by decide)
  have e : submitRule coreConsts gcSupplied = .ok "\nRULE r\nGC\nENDRULE\n" := rfl
  rw [e] at ht
  have e2 : text = "\nRULE r\nGC\nENDRULE\n" := (Except.ok.inj ht).symm
  subst e2
  revert hin
  decide

/-- C3 (amended): a supplied (non-empty) do is left as supplied by `submit`, and for
Latency, Exception and Return it is the do substituted in the method-entry rule (the
stress and GC rules have no do); an absent do becomes `Thread.sleep(d)` for Latency,
`throw new e` for Exception, `return v` for Return, and stays empty for Stress and
GC. -/
theorem submit_derives_do (k : Consts) (env : Env) (c : JVMCommand) (s : Sys) :
    (c.Do ≠ "" →
      (submit k env c s).attack.Do = c.Do ∧
      ((c.Action = k.JVMLatencyAction ∨ c.Action = k.JVMExceptionAction
          ∨ c.Action = k.JVMReturnAction) →
        submitRule k c = .ok ("\nRULE " ++ c.Name ++ "\nCLASS " ++ c.Class ++ "\nMETHOD "
          ++ c.Method ++ "\nAT ENTRY\nIF true\nDO \n\t" ++ c.Do ++ ";\nENDRULE\n"))) ∧
    (c.Do = "" →
      (c.Action = k.JVMLatencyAction →
        (submit k env c s).attack.Do = "Thread.sleep(" ++ c.LatencyDuration ++ ")") ∧
      (c.Action = k.JVMExceptionAction →
        (submit k env c s).attack.Do = "throw new " ++ c.ThrowException) ∧
      (c.Action = k.JVMReturnAction →
        (submit k env c s).attack.Do = "return " ++ c.ReturnValue) ∧
      (c.Action = k.JVMStressAction → (submit k env c s).attack.Do = "") ∧
      (c.Action = k.JVMGCAction → (submit k env c s).attack.Do = "")) := by
  rw [submit_attack]
  constructor
  · intro hd
    refine ⟨by rw [submitDerive_of_supplied k c hd], fun h => ?_⟩
    rw [submitRule_entry k c h, submitDerive_of_supplied k c hd]
  · intro hd
    refine ⟨fun h => ?_, fun h => ?_, fun h => ?_, fun h => ?_, fun h => ?_⟩
    · rw [submitDerive_latency k c hd h]
    · rw [submitDerive_exception k c hd h]
    · rw [submitDerive_return k c hd h]
    · rw [submitDerive_stress k c hd h]
      split_ifs <;> exact hd
    · rw [submitDerive_gc k c h]
      exact hd

/-- Witness of C3 (amended): the Latency command without a supplied do, and with
the supplied do `x`. -/
theorem submit_derives_do_witness :
    (submit coreConsts (envOk latencyCommand) latencyCommand sys0).attack.Do =
      "Thread.sleep(" ++ "500" ++ ")" ∧
    (submit coreConsts (envOk latencyCommand) latencySupplied sys0).attack.Do = "x" ∧
    submitRule coreConsts latencySupplied =
      .ok ("\nRULE " ++ "r" ++ "\nCLASS " ++ "Main" ++ "\nMETHOD " ++ "run"
        ++ "\nAT ENTRY\nIF true\nDO \n\t" ++ "x" ++ ";\nENDRULE\n") :=
  ⟨((submit_derives_do coreConsts (envOk latencyCommand) latencyCommand sys0).2 rfl).1 rfl,
    ((submit_derives_do coreConsts (envOk latencyCommand) latencySupplied sys0).1
      (by decide)).1,
    ((submit_derives_do coreConsts (envOk latencyCommand) latencySupplied sys0).1
      (by decide)).2 (Or.inl rfl)⟩

/-- C4: for action Stress with no supplied do, `submit` sets the stress fields to
CPU, CPUCOUNT and the CPU count when the count is positive, and otherwise to MEMORY,
MEMORYSIZE and the memory size. -/
theorem submit_derives_stress_fields (k : Consts) (env : Env) (c : JVMCommand) (s : Sys)
    (ha : c.Action = k.JVMStressAction) (hd : c.Do = "") :
    (c.CPUCount > 0 →
      (submit k env c s).attack.StressType = "CPU" ∧
      (submit k env c s).attack.StressValueName = "CPUCOUNT" ∧
      (submit k env c s).attack.StressValue = .int c.CPUCount) ∧
    (c.CPUCount ≤ 0 →
      (submit k env c s).attack.StressType = "MEMORY" ∧
      (submit k env c s).attack.StressValueName = "MEMORYSIZE" ∧
      (submit k env c s).attack.StressValue = .str c.MemorySize) := by
  rw [submit_attack, submitDerive_stress k c hd ha]
  constructor
  · intro h
    rw [if_pos h]
    exact ⟨rfl, rfl, rfl⟩
  · intro h
    rw [if_neg (not_lt.mpr h)]
    exact ⟨rfl, rfl, rfl⟩

/-- Witness of C4: two CPUs and an empty memory size give CPU, CPUCOUNT, 2, and
no CPU with memory size 1GB gives MEMORY, MEMORYSIZE, 1GB. -/
theorem submit_derives_stress_fields_witness :
    ((submit coreConsts (envOk gcCommand) stressCommand sys0).attack.StressType = "CPU" ∧
      (submit coreConsts (envOk gcCommand) stressCommand sys0).attack.StressValueName
        = "CPUCOUNT" ∧
      (submit coreConsts (envOk gcCommand) stressCommand sys0).attack.StressValue = .int 2) ∧
    ((submit coreConsts (envOk gcCommand) memoryCommand sys0).attack.StressType = "MEMORY" ∧
      (submit coreConsts (envOk gcCommand) memoryCommand sys0).attack.StressValueName
        = "MEMORYSIZE" ∧
      (submit coreConsts (envOk gcCommand) memoryCommand sys0).attack.StressValue
        = .str "1GB") :=
  ⟨(submit_derives_stress_fields coreConsts (envOk gcCommand) stressCommand sys0 rfl rfl).1
      (by decide),
    (submit_derives_stress_fields coreConsts (envOk gcCommand) memoryCommand sys0 rfl rfl).2
      (by decide)⟩

/-- C9: applying the derivation step of `submit` twice gives the same command as
applying it once, and the rule text rendered from the derived command is the rule
text rendered from the original one. -/
theorem submit_derivation_idempotent (k : Consts) (c : JVMCommand) :
    submitDerive k (submitDerive k c) = submitDerive k c ∧
    submitRule k (submitDerive k c) = submitRule k c := by
  refine ⟨submitDerive_idem k c, ?_⟩
  unfold submitRule
  rw [submitDerive_idem k c]

/-- C10: for action Stress with a supplied do, `submit` leaves the three stress
fields as the caller gave them and renders the stress rule from them, whatever
the CPU count, the memory size and the supplied do are. -/
theorem submit_keeps_supplied_stress_fields (k : Consts) (env : Env) (c : JVMCommand)
    (s : Sys) (ha : c.Action = k.JVMStressAction) (hd : c.Do ≠ "") :
    (submit k env c s).attack.StressType = c.StressType ∧
    (submit k env c s).attack.StressValueName = c.StressValueName ∧
    (submit k env c s).attack.StressValue = c.StressValue ∧
    (∀ (cpu : Int) (mem d : String), d ≠ "" →
      submitRule k { c with CPUCount := cpu, MemorySize := mem, Do := d } =
        .ok ("\nRULE " ++ c.Name ++ "\nSTRESS " ++ c.StressType ++ "\n" ++ c.StressValueName
          ++ " " ++ c.StressValue.print ++ "\nENDRULE\n")) ∧
    submitRule k c =
      .ok ("\nRULE " ++ c.Name ++ "\nSTRESS " ++ c.StressType ++ "\n" ++ c.StressValueName
        ++ " " ++ c.StressValue.print ++ "\nENDRULE\n") := by
  rw [submit_attack, submitDerive_of_supplied k c hd]
  refine ⟨rfl, rfl, rfl, ?_, ?_⟩
  · intro cpu mem d hne
    have e := submitRule_stress k { c with CPUCount := cpu, MemorySize := mem, Do := d } ha
    rw [submitDerive_of_supplied k { c with CPUCount := cpu, MemorySize := mem, Do := d } hne]
      at e
    exact e
  · rw [submitRule_stress k c ha, submitDerive_of_supplied k c hd]

/-- Witness of C10: a Stress command with do `x` and fields HEAP, SIZE, 1GB. -/
theorem submit_keeps_supplied_stress_fields_witness :
    (submit coreConsts (envOk gcCommand) stressSupplied sys0).attack.StressType = "HEAP" ∧
    submitRule coreConsts stressSupplied =
      .ok ("\nRULE " ++ "r" ++ "\nSTRESS " ++ "HEAP" ++ "\n" ++ "SIZE" ++ " " ++ "1GB"
        ++ "\nENDRULE\n") :=
  ⟨(submit_keeps_supplied_stress_fields coreConsts (envOk gcCommand) stressSupplied sys0 rfl
      (by decide)).1,
    (submit_keeps_supplied_stress_fields coreConsts (envOk gcCommand) stressSupplied sys0 rfl
      (by decide)).2.2.2.2⟩

end chaosd

/-! ## Claims on errors and on the temporary file -/

namespace chaosd

/-- C5: for a command of type Submit whose action is none of the five, `Attack`
returns the unsupported-action error and leaves the command and the state outside
untouched: no file is created, no helper is run, nothing is logged. -/
theorem attack_rejects_unsupported_action (k : Consts) (env : Env) (c : JVMCommand) (s : Sys)
    (ht : c.Typ = k.JVMSubmitType)
    (ha : c.Action ∉ [k.JVMLatencyAction, k.JVMExceptionAction, k.JVMReturnAction,
      k.JVMStressAction, k.JVMGCAction]) :
    Attack k env c s = ⟨some ("jvm action " ++ c.Action ++ " not supported"), c, s⟩ := by
  have hne : ¬ c.Typ = k.JVMInstallType := by
    rw [ht]
    exact fun e => k.types_ne e.symm
  unfold Attack
  rw [if_neg hne, if_pos ht]
  unfold submit
  simp only [submitDerive_other k c ha, submitTemplate_other k c ha]

/-- Witness of C5: the action `reboot`, with and without a supplied do. -/
theorem attack_rejects_unsupported_action_witness :
    Attack coreConsts (envOk gcCommand) otherCommand sys0 =
      ⟨some ("jvm action " ++ "reboot" ++ " not supported"), otherCommand, sys0⟩ ∧
    Attack coreConsts (envOk gcCommand) { otherCommand with Do := "x" } sys0 =
      ⟨some ("jvm action " ++ "reboot" ++ " not supported"), { otherCommand with Do := "x" },
        sys0⟩ :=
  ⟨attack_rejects_unsupported_action coreConsts (envOk gcCommand) otherCommand sys0 rfl
      (by decide),
    attack_rejects_unsupported_action coreConsts (envOk gcCommand)
      { otherCommand with Do := "x" } sys0 rfl (by decide)⟩

/-- C6 (counterexample): it is not the case that whenever the helper run by `install`
fails with output `o` the returned error text contains `o`; with output `boom` and
exit status 1 the returned error is `exit status 1`. -/
theorem install_error_omits_output :
    ¬ ∀ (env : Env) (c : JVMCommand) (s : Sys) (o e : String),
        env.CombinedOutput (bmInstallCommand c.Port c.Pid) = (o, some e) →
        ∃ t, (install env c s).err = some t ∧ o.data <:+: t.data := by
  intro h
  obtain ⟨t, ht, hin⟩ := h (envFail gcCommand) gcCommand sys0 "boom" (exitError 1) rfl
  have e : t = "exit status 1" := by
    have h1 : (install (envFail gcCommand) gcCommand sys0).err = some "exit status 1" := by
      decide
    rw [h1] at ht
    exact (Option.some.inj ht).symm
  subst e
  revert hin
  decide

/-- C6 (amended): when the helper run by `install`, `submit` or `Recover` returns
output `o` and result `r`, the operation returns exactly `r`, that is the error of
running the helper when it failed and nil when it succeeded, and the output `o` goes
to the log. -/
theorem helper_result_returned_output_logged (k : Consts) (env : Env) (c : JVMCommand)
    (s : Sys) (exp : Experiment) :
    (∀ (o : String) (r : Option String),
      env.CombinedOutput (bmInstallCommand c.Port c.Pid) = (o, r) →
      (install env c s).err = r ∧ helperLog o r ∈ (install env c s).sys.logs) ∧
    (∀ (buf name o : String) (r : Option String),
      submitRule k c = .ok buf →
      env.tempNames.find? (fun n => decide (n ∉ s.names)) = some name →
      env.writeErr = none → env.closeErr = none →
      env.CombinedOutput (bmSubmitCommand c.Port "l" name) = (o, r) →
      (submit k env c s).err = r ∧ helperLog o r ∈ (submit k env c s).sys.logs) ∧
    (∀ (attack : JVMCommand) (buf name o : String) (r : Option String),
      env.Unmarshal exp.RecoverCommand = .ok attack →
      recoverRule attack = .ok buf →
      env.tempNames.find? (fun n => decide (n ∉ s.names)) = some name →
      env.writeErr = none → env.closeErr = none →
      env.CombinedOutput (bmSubmitCommand attack.Port "u" name) = (o, r) →
      (Recover env exp s).1 = r ∧ helperLog o r ∈ (Recover env exp s).2.logs) := by
  refine ⟨?_, ?_, ?_⟩
  · intro o r hr
    unfold install
    cases r <;> simp [runBash, hr, Sys.log, helperLog]
  · intro buf name o r hb hf hw hc hr
    rw [submit_of_rule k env c s buf hb]
    rw [← submitDerive_Port k c] at hr
    obtain ⟨h1, h2, -, -⟩ := submitFile_helper env true "l" (submitDerive k c) buf
      (s.log .info "byteman rule" [("rule", buf)]) name o r hf hw hc hr
    refine ⟨h1, ?_⟩
    show helperLog o r ∈ (submitFile env true "l" (submitDerive k c) buf
      (s.log .info "byteman rule" [("rule", buf)])).2.logs
    rw [h2]
    simp
  · intro attack buf name o r hu hb hf hw hc hr
    rw [Recover_of_rule env exp s attack buf hu hb]
    obtain ⟨h1, h2, -, -⟩ := submitFile_helper env false "u" attack buf s name o r hf hw hc hr
    refine ⟨h1, ?_⟩
    rw [h2]
    simp

/-- Witness of C6 (amended): a helper that prints `boom` and exits with status 1
makes `install` and `submit` return `exit status 1`. -/
theorem helper_result_returned_output_logged_witness :
    ((install (envFail gcCommand) gcCommand sys0).err = some (exitError 1) ∧
      helperLog "boom" (some (exitError 1)) ∈ (install (envFail gcCommand) gcCommand sys0).sys.logs) ∧
    ((submit coreConsts (envFail gcCommand) gcCommand sys0).err = some (exitError 1) ∧
      helperLog "boom" (some (exitError 1)) ∈
        (submit coreConsts (envFail gcCommand) gcCommand sys0).sys.logs) :=
  ⟨(helper_result_returned_output_logged coreConsts (envFail gcCommand) gcCommand sys0
      ⟨"stored"⟩).1 "boom" (some (exitError 1)) rfl,
    (helper_result_returned_output_logged coreConsts (envFail gcCommand) gcCommand sys0
      ⟨"stored"⟩).2.1 "\nRULE r\nGC\nENDRULE\n" "/tmp/rule.btm1" "boom" (some (exitError 1))
      rfl (by decide) rfl rfl rfl⟩

/-- C7: on every outcome of `submit` and of `Recover` the files that exist when the
operation returns are the files that existed before it, and the temporary file the
operation created is not among them. -/
theorem temp_rule_file_removed (k : Consts) (env : Env) (c : JVMCommand) (exp : Experiment)
    (s : Sys) :
    (submit k env c s).sys.files = s.files ∧
    (Recover env exp s).2.files = s.files ∧
    (∀ name, env.tempNames.find? (fun n => decide (n ∉ s.names)) = some name →
      name ∉ (submit k env c s).sys.names ∧ name ∉ (Recover env exp s).2.names) := by
  refine ⟨submit_files k env c s, Recover_files env exp s, fun name hf => ?_⟩
  have hfresh := TempFile_fresh env s name hf
  unfold Sys.names
  rw [submit_files k env c s, Recover_files env exp s]
  exact ⟨hfresh, hfresh⟩

/-- Witness of C7: a failing helper, starting from one existing file. -/
theorem temp_rule_file_removed_witness :
    (submit coreConsts (envFail gcCommand) gcCommand
      { sys0 with files := [("/etc/hosts", "h")] }).sys.files = [("/etc/hosts", "h")] ∧
    "/tmp/rule.btm1" ∉ (submit coreConsts (envFail gcCommand) gcCommand
      { sys0 with files := [("/etc/hosts", "h")] }).sys.names :=
  ⟨(temp_rule_file_removed coreConsts (envFail gcCommand) gcCommand ⟨"stored"⟩
      { sys0 with files := [("/etc/hosts", "h")] }).1,
    ((temp_rule_file_removed coreConsts (envFail gcCommand) gcCommand ⟨"stored"⟩
      { sys0 with files := [("/etc/hosts", "h")] }).2.2 "/tmp/rule.btm1" (by decide)).1⟩

end chaosd

namespace command

/-- C8: with an empty process value the command exits with the bad-arguments status
and the error `process not provided`, constructs no client and dispatches nothing;
with a non-empty value `p` every request it dispatches is the one request with
process `p` and signal SIGKILL, sent once the client is constructed. -/
theorem process_kill_checks_argument (env : CmdEnv) :
    processKillCommandFunc env "" =
      ⟨false, [], [], some (env.ExitBadArgs, "process not provided")⟩ ∧
    (∀ p : String, p ≠ "" →
      ((processKillCommandFunc env p).requests = [] ∨
        (processKillCommandFunc env p).requests = [⟨p, SIGKILL⟩]) ∧
      (env.mustClientFromCmd = none →
        (processKillCommandFunc env p).requests = [⟨p, SIGKILL⟩] ∧
        (processKillCommandFunc env p).clientBuilt = true)) := by
  constructor
  · rfl
  · intro p hp
    have h0 : ¬ p.length = 0 := fun h => hp ((chaosd.length_eq_zero_iff p).mp h)
    unfold processKillCommandFunc
    rw [if_neg h0]
    cases hm : env.mustClientFromCmd with
    | some ce => simp [ExitWithError]
    | none =>
      cases hr : env.CreateProcessAttack ⟨p, SIGKILL⟩ <;> simp [ExitWithError, hr]

/-- Witness of C8: no flag, and the process `nginx`. -/
theorem process_kill_checks_argument_witness :
    processKillCommandFunc cmdEnvOk "" =
      ⟨false, [], [], some (128, "process not provided")⟩ ∧
    (processKillCommandFunc cmdEnvOk "nginx").requests = [⟨"nginx", 9⟩] :=
  ⟨(process_kill_checks_argument cmdEnvOk).1,
    (((process_kill_checks_argument cmdEnvOk).2 "nginx" (by decide)).2 rfl).1⟩

end command
